import Mathlib

/-!
Shallow embedding of the MobileAlerts Home Assistant integration core
(custom_components/mobile_alerts: base.py, sensor.py, binary_sensor.py,
const.py): the entity state reconciliation, the rolling rain windows and the
availability rule.  Python floats and epoch-second timestamps are modelled as
rationals; an insertion-ordered Python dict as an association list with
unique keys; a raised Python exception as the error case of Except, carrying
the state left behind when the exception propagates out of the modelled
method.
-/

namespace MobileAlerts

/-- Python assignment d[k] = v on an insertion-ordered dict: overwrite in
place when the key is present, otherwise append at the end. -/
def dictInsert (d : List (ℚ × ℚ)) (k v : ℚ) : List (ℚ × ℚ) :=
  if d.any (fun p => decide (p.1 = k)) then
    d.map (fun p => if p.1 = k then (k, v) else p)
  else d ++ [(k, v)]

/-- Python sum over the values of a dict. -/
def dictSum (d : List (ℚ × ℚ)) : ℚ :=
  (d.map Prod.snd).sum

/-- Measurement type tags of the external mobilealerts library that the
modelled logic distinguishes: RAIN and TIME_SPAN get special treatment,
every other non-enum numeric type behaves alike here. -/
inductive MType
  | rain
  | timeSpan
  | other
deriving DecidableEq

/-- A decoded measurement value as the entity code reads it: either a
MeasurementError (carrying its value_str) or a numeric reading. -/
inductive MVal
  | merror (s : String)
  | num (q : ℚ)
deriving DecidableEq

/-- One measurement object of the external library, with the fields the
entity code reads and the mutable prior_value field it writes. -/
structure Measurement where
  mtype : MType
  value : MVal
  has_prior_value : Bool
  prior_value : Option ℚ
deriving DecidableEq

/-- MobileAlertesSensor.update_data_from_sensor (sensor.py lines 236 to 249)
for a present, non-enum measurement: for a RAIN measurement with no prior
value the measurement gets the currently displayed value as prior value, then
the displayed value becomes None on a decode error and the reading otherwise.
Returns the measurement (whose prior_value may have been written) and the new
value of _attr_native_value. -/
def sensor_update_data_from_sensor (m : Measurement) (native : Option ℚ) :
    Measurement × Option ℚ :=
  let m1 := if m.mtype = MType.rain ∧ m.prior_value = none
            then { m with prior_value := native } else m
  match m1.value with
  | MVal.merror _ => (m1, none)
  | MVal.num q => (m1, some q)

/-- The extra state attribute dict the integration writes, one field per
recognized key; none models an absent key.  The prior_value key can be
present with a null value, hence the nested Option. -/
structure Attrs where
  last_updated : Option ℚ := none
  by_event : Option Bool := none
  prior_value : Option (Option ℚ) := none
  error : Option String := none
  measurements : Option (List (ℚ × ℚ)) := none
deriving DecidableEq

/-- One key of a Python dict.update: the new binding wins when present,
otherwise the old one stays. -/
def updKey {α : Type} (newv oldv : Option α) : Option α :=
  match newv with
  | some v => some v
  | none => oldv

/-- Python old.update(new) over the recognized attribute keys.  An all-none
old value also covers the falsy branch of base.py lines 244 to 247, where the
new dict is assigned directly, since updating an empty dict gives the new
dict back. -/
def attrsUpdate (old newa : Attrs) : Attrs where
  last_updated := updKey newa.last_updated old.last_updated
  by_event := updKey newa.by_event old.by_event
  prior_value := updKey newa.prior_value old.prior_value
  error := updKey newa.error old.error
  measurements := updKey newa.measurements old.measurements

/-- Mutable state of a direct MobileAlertesSensor entity:
_attr_native_value, _attr_extra_state_attributes (all fields none models the
initial None), _last_state (the restored platform state, modelled by its
numeric value) and _last_extra_data. -/
structure SensorState where
  native : Option ℚ
  attrs : Attrs
  lastState : Option ℚ
  lastExtra : Option Attrs
deriving DecidableEq

/-- A freshly constructed entity that has neither restored nor live data. -/
def initialSensorState : SensorState :=
  { native := none, attrs := {}, lastState := none, lastExtra := none }

/-- What one coordinator callback reads from the underlying Sensor object:
whether sensor.last_update is set (live data present), sensor.timestamp and
sensor.by_event. -/
structure SensorInput where
  hasLiveData : Bool
  timestamp : ℚ
  by_event : Bool
deriving DecidableEq

/-- MobileAlertesSensor.update_data_from_last_state (sensor.py lines 251 to
259): adopt the stored last state and clear it; with no stored state the
displayed value becomes None. -/
def sensor_update_data_from_last_state (s : SensorState) : SensorState :=
  match s.lastState with
  | some v => { s with native := some v, lastState := none }
  | none => { s with native := none }

/-- The attribute dict built by MobileAlertesEntity._handle_coordinator_update
(base.py lines 225 to 236) when sensor.last_update is not None and the entity
has a measurement: last_updated from sensor.timestamp, by_event, prior_value
when the measurement carries one, and error when the value is a
MeasurementError. -/
def buildLiveAttrs (inp : SensorInput) (m : Measurement) : Attrs :=
  { last_updated := some inp.timestamp
    by_event := some inp.by_event
    prior_value := if m.has_prior_value then some m.prior_value else none
    error := match m.value with
      | MVal.merror s => some s
      | MVal.num _ => none
    measurements := none }

/-- MobileAlertesEntity._handle_coordinator_update (base.py lines 197 to 252)
specialised to a direct MobileAlertesSensor entity already added to hass,
with a measurement and no dependents: with live data present the value comes
from the sensor; otherwise a pending stored state is consumed; otherwise
nothing updates.  Afterwards the attribute dict is rebuilt and merged into
_attr_extra_state_attributes. -/
def handle_coordinator_update (inp : SensorInput) (m : Measurement)
    (s : SensorState) : Measurement × SensorState :=
  if inp.hasLiveData then
    let r := sensor_update_data_from_sensor m s.native
    let attr := buildLiveAttrs inp r.1
    (r.1, { s with native := r.2, attrs := attrsUpdate s.attrs attr })
  else if s.lastState.isSome then
    let s1 := sensor_update_data_from_last_state s
    let attr := match s1.lastExtra with
      | some e => e
      | none => {}
    (m, { s1 with attrs := attrsUpdate s1.attrs attr })
  else
    (m, s)

/-- One delivery of a coordinator update to a direct sensor entity, threading
the mutable measurement object with the entity state. -/
def liveStep (inp : SensorInput) (p : Measurement × SensorState) :
    Measurement × SensorState :=
  handle_coordinator_update inp p.1 p.2

/-- What MobileAlertesPeriodRainSensor reads from its underlying rain entity
in one update cycle: whether _get_rain_sensor found it, the float value of
its displayed state, its prior_value property (which encodes a missing prior
as -1) and its last_update property. -/
structure RainSensorView where
  found : Bool
  curr_value : ℚ
  prior_value : ℚ
  last_update : ℚ
deriving DecidableEq

/-- MobileAlertesPeriodRainSensor._get_last_rain_value (sensor.py lines 380
to 393): the increment curr minus prior, produced only when the prior value
is known (nonnegative) and the rain entity updated strictly after this
window last accepted an increment. -/
def get_last_rain_value (rs : RainSensorView) (self_last_update : ℚ) :
    Option ℚ :=
  if rs.found then
    if rs.prior_value ≥ 0 ∧ rs.last_update > self_last_update then
      some (rs.curr_value - rs.prior_value)
    else none
  else none

/-- The persisted extra attributes of a period rain entity as read back
before parsing: a field is none when its key is absent, and a parsed value is
none when the stored string does not parse (datetime.fromisoformat or float
raises ValueError on it). -/
structure RawAttrs where
  last_updated : Option (Option ℚ) := none
  measurements : Option (List (Option ℚ × Option ℚ)) := none
deriving DecidableEq

/-- Mutable state of a MobileAlertesPeriodRainSensor entity: the displayed
value, the written attribute dict, the pending restored state and extra
data, the window _last_update and the window dict _measurements. -/
structure PeriodRainState where
  native : Option ℚ
  attrs : Attrs
  lastState : Option ℚ
  lastExtra : Option RawAttrs
  last_update : ℚ
  measurements : List (ℚ × ℚ)
deriving DecidableEq

/-- The insertion half of
MobileAlertesPeriodRainSensor.update_data_from_sensor (sensor.py lines 399
to 410): a produced and truthy increment is stored under the rain entity
last_update timestamp, which also becomes the window last_update.  Python
truthiness drops None and 0.0 but keeps negative floats. -/
def periodRainInsert (rs : RainSensorView) (entries : List (ℚ × ℚ))
    (last_update : ℚ) : List (ℚ × ℚ) × ℚ :=
  if rs.found then
    match get_last_rain_value rs last_update with
    | some lastRain =>
      if lastRain ≠ 0 then
        (dictInsert entries rs.last_update lastRain, rs.last_update)
      else (entries, last_update)
    | none => (entries, last_update)
  else (entries, last_update)

/-- The eviction loop of update_data_from_sensor (sensor.py lines 412 to
421) under CPython dict semantics: the loop walks the keys in insertion
order and pops stale entries from the dict it is iterating, and the first
pop makes the following iterator step raise RuntimeError (dictionary changed
size during iteration), the exhaustion check included.  Ok total is the
completed sum; error d carries the dict as the RuntimeError leaves it. -/
def evictLoop (cutoff : ℚ) : List (ℚ × ℚ) → Except (List (ℚ × ℚ)) ℚ
  | [] => Except.ok 0
  | (t, v) :: rest =>
    if t < cutoff then Except.error rest
    else
      match evictLoop cutoff rest with
      | Except.ok total => Except.ok (v + total)
      | Except.error rest2 => Except.error ((t, v) :: rest2)

/-- MobileAlertesPeriodRainSensor.update_data_from_sensor (sensor.py lines
395 to 443): insert the produced increment if any, then run the eviction
loop summing the surviving entries, then set the displayed value and assign
the rebuilt attribute dict.  When the eviction loop raises, the error case
carries the state as the method leaves it: the increment inserted, the first
stale entry popped, displayed value and attributes untouched. -/
def periodRainUpdate (rs : RainSensorView) (now period : ℚ)
    (s : PeriodRainState) : Except PeriodRainState PeriodRainState :=
  let ins := periodRainInsert rs s.measurements s.last_update
  match evictLoop (now - period) ins.1 with
  | Except.error d =>
    Except.error { s with measurements := d, last_update := ins.2 }
  | Except.ok total =>
    Except.ok { s with
      measurements := ins.1
      last_update := ins.2
      native := some total
      attrs := { last_updated := some ins.2, measurements := some ins.1 } }

/-- The dict comprehension of update_data_from_last_state (sensor.py lines
459 to 463), pair by pair over the stored list: ValueError is raised at the
first pair whose timestamp or value does not parse, and nothing is assigned
back in that case. -/
def parseMeasLoop (d : List (ℚ × ℚ)) :
    List (Option ℚ × Option ℚ) → Except Unit (List (ℚ × ℚ))
  | [] => Except.ok d
  | p :: rest =>
    match p with
    | (some t, some v) => parseMeasLoop (dictInsert d t v) rest
    | _ => Except.error ()

/-- The whole stored measurements list parsed into a fresh dict. -/
def parseMeasurements (raw : List (Option ℚ × Option ℚ)) :
    Except Unit (List (ℚ × ℚ)) :=
  parseMeasLoop [] raw

/-- MobileAlertesPeriodRainSensor.update_data_from_last_state (sensor.py
lines 445 to 473): the inherited state restore, then the measurements dict
and then the last_update timestamp from the persisted extra data.  A
ValueError from a malformed field propagates out (the error case) with the
state already mutated so far: the measurements dict is only assigned after
the whole comprehension succeeded, and a malformed last_updated value raises
after the measurements were already assigned. -/
def periodRainRestore (s : PeriodRainState) :
    Except PeriodRainState PeriodRainState :=
  let s1 :=
    match s.lastState with
    | some v => { s with native := some v, lastState := none }
    | none => { s with native := none }
  match s1.lastExtra with
  | none => Except.ok s1
  | some raw =>
    let afterMeas : Except PeriodRainState PeriodRainState :=
      match raw.measurements with
      | none => Except.ok s1
      | some ms =>
        match parseMeasurements ms with
        | Except.error _ => Except.error s1
        | Except.ok d => Except.ok { s1 with measurements := d }
    match afterMeas with
    | Except.error s2 => Except.error s2
    | Except.ok s2 =>
      match raw.last_updated with
      | none => Except.ok s2
      | some (some lu) => Except.ok { s2 with last_update := lu }
      | some none => Except.error s2

/-- STATE_ATTR_EXTRA (const.py lines 22 to 28): the recognized persisted
attribute keys. -/
def STATE_ATTR_EXTRA : List String :=
  ["by_event", "error", "last_updated", "prior_value", "measurements"]

/-- MobileAlertesExtraStoredData.from_dict (base.py lines 115 to 124): keep
exactly the bindings of the restored dict whose key is recognized. -/
def from_dict {α : Type} (restored : List (String × α)) : List (String × α) :=
  restored.filter (fun p => decide (p.1 ∈ STATE_ATTR_EXTRA))

/-- MobileAlertesEntity.available (base.py lines 300 to 313): a calculated
entity or a sensor with update_period 0 mirrors the parent gateway online
flag; otherwise the entity is available while now is at most last_update
plus 12.1 nominal update periods. -/
def available (update_period : ℚ) (value_is_calculated parent_is_online : Bool)
    (last_update now : ℚ) : Bool :=
  if update_period = 0 ∨ value_is_calculated = true then parent_is_online
  else decide (last_update + update_period * (121 / 10) ≥ now)

/-- MobileAlertesIsRainingBinarySensor.available (binary_sensor.py lines 190
to 194): the is-raining calculated entity overrides the base availability
rule and mirrors the underlying time-span entity instead: available iff that
entity was found and is itself available, by the base rule applied to the
time-span entity (a direct entity, so value_is_calculated is false
there). -/
def isRainingAvailable (found : Bool) (base_update_period : ℚ)
    (base_parent_is_online : Bool) (base_last_update now : ℚ) : Bool :=
  found &&
    available base_update_period false base_parent_is_online
      base_last_update now

/-- Python int() applied to a rational reading: truncation toward zero. -/
def pyInt (q : ℚ) : ℤ :=
  if 0 ≤ q then ⌊q⌋ else ⌈q⌉

/-- LAST_RAIN_PERIOD (const.py line 53): fifteen minutes in seconds. -/
def LAST_RAIN_PERIOD : ℚ := 15 * 60

/-- MobileAlertesIsRainingBinarySensor.update_data_from_sensor
(binary_sensor.py lines 168 to 188): raining iff the time-span entity was
found, has a displayed value whose int() is 0, and its last_update is within
LAST_RAIN_PERIOD of now. -/
def isRainingUpdate (found : Bool) (base_native : Option ℚ)
    (base_last_update now : ℚ) : Bool :=
  if found then
    match base_native with
    | some v =>
      decide (pyInt v = 0) && decide (base_last_update ≥ now - LAST_RAIN_PERIOD)
    | none => false
  else false

/-! Helper lemmas. -/

/-- update_data_from_sensor as a pair: the measurement after the RAIN
prior-value backfill, and the displayed value derived from the reading
alone. -/
theorem sensor_update_pair (m : Measurement) (n : Option ℚ) :
    sensor_update_data_from_sensor m n =
      (if m.mtype = MType.rain ∧ m.prior_value = none
       then { m with prior_value := n } else m,
       match m.value with
       | MVal.merror _ => none
       | MVal.num q => some q) := by
  by_cases hc : m.mtype = MType.rain ∧ m.prior_value = none
  · cases hv : m.value <;> simp [sensor_update_data_from_sensor, hc, hv]
  · cases hv : m.value <;> simp [sensor_update_data_from_sensor, hc, hv]

/-- The backfill never changes the reading itself. -/
theorem sensor_update_value (m : Measurement) (n : Option ℚ) :
    (sensor_update_data_from_sensor m n).1.value = m.value := by
  rw [sensor_update_pair]
  by_cases hc : m.mtype = MType.rain ∧ m.prior_value = none <;> simp [hc]

/-- The backfill never changes the measurement type. -/
theorem sensor_update_mtype (m : Measurement) (n : Option ℚ) :
    (sensor_update_data_from_sensor m n).1.mtype = m.mtype := by
  rw [sensor_update_pair]
  by_cases hc : m.mtype = MType.rain ∧ m.prior_value = none <;> simp [hc]

/-- The coordinator callback in the live case, as one equation. -/
theorem handle_live_eq (inp : SensorInput) (hl : inp.hasLiveData = true)
    (m : Measurement) (s : SensorState) :
    handle_coordinator_update inp m s =
      ((sensor_update_data_from_sensor m s.native).1,
       { s with
         native := (sensor_update_data_from_sensor m s.native).2,
         attrs := attrsUpdate s.attrs
           (buildLiveAttrs inp (sensor_update_data_from_sensor m s.native).1) }) := by
  simp [handle_coordinator_update, hl]

/-- Merging the same dict twice is the same as merging it once. -/
theorem updKey_idem {α : Type} (n o : Option α) :
    updKey n (updKey n o) = updKey n o := by
  cases n <;> rfl

/-- Attribute merge is idempotent in its second argument. -/
theorem attrsUpdate_idem (a b : Attrs) :
    attrsUpdate (attrsUpdate a b) b = attrsUpdate a b := by
  simp [attrsUpdate, updKey_idem]

/-! The claims. -/

/-- C4 counterexample: the is-raining entity is a calculated entity (its
constructor sets value_is_calculated true, binary_sensor.py line 164), yet
its overriding available property does not equal the parent online flag:
with the parent online and the time-span entity stale (last update 0,
period 60, now 1000) it is unavailable, and with the parent offline but the
time-span entity fresh (last update 274) it is available. -/
theorem calculated_availability_cex :
    isRainingAvailable true 60 true 0 1000 = false ∧
    isRainingAvailable true 60 false 274 1000 = true := by
  constructor <;> norm_num [isRainingAvailable, available]

/-- C4 amended: a direct entity with nominal update period P > 0 is
available exactly when now - last_update is at most P * 12.1, inclusively
at the boundary; the base rule for update period 0 or a calculated entity
answers the parent online flag (the period rain calculated entities inherit
it unchanged); but the is-raining calculated entity overrides availability
to mirror the time-span base entity instead: unavailable when that entity
is missing, and otherwise governed by the base freshness rule applied to
that entity, independent of the parent online flag. -/
theorem availability_rules (P : ℚ) (calcd online : Bool) (lu now : ℚ) :
    (0 < P → calcd = false →
      (available P calcd online lu now = true ↔
        now - lu ≤ P * (121 / 10))) ∧
    ((P = 0 ∨ calcd = true) → available P calcd online lu now = online) ∧
    (0 < P →
      (isRainingAvailable true P online lu now = true ↔
        now - lu ≤ P * (121 / 10))) ∧
    isRainingAvailable false P online lu now = false := by
  refine ⟨fun hP hc => ?_, fun h => ?_, fun hP => ?_,
    by simp [isRainingAvailable]⟩
  · simp only [available, hc]
    rw [if_neg]
    · rw [decide_eq_true_eq]
      constructor <;> intro h <;> linarith
    · rintro (h | h)
      · exact absurd h (ne_of_gt hP)
      · exact Bool.false_ne_true h
  · simp only [available]
    rw [if_pos h]
  · simp only [isRainingAvailable, Bool.true_and, available]
    rw [if_neg]
    · rw [decide_eq_true_eq]
      constructor <;> intro h <;> linarith
    · rintro (h | h)
      · exact absurd h (ne_of_gt hP)
      · exact Bool.false_ne_true h

/-- C4 witness: a direct entity whose last update was 726 = 60 * 12.1
seconds ago sits exactly at the inclusive boundary and is still available; a
period 0 entity answers the parent flag; a calculated entity under the base
rule answers the parent flag (false) even while fresh; and the overriding
is-raining availability follows the time-span entity freshness while the
parent is offline. -/
theorem availability_rules_witness :
    available 60 false true 274 1000 = true ∧
    available 0 false false 274 1000 = false ∧
    available 60 true false 274 1000 = false ∧
    isRainingAvailable true 60 false 274 1000 = true := by
  refine ⟨?_, ?_, ?_, ?_⟩
  · exact ((availability_rules 60 false true 274 1000).1
      (by norm_num) rfl).mpr (by norm_num)
  · exact (availability_rules 0 false false 274 1000).2.1 (Or.inl rfl)
  · exact (availability_rules 60 true false 274 1000).2.1 (Or.inr rfl)
  · exact ((availability_rules 60 false false 274 1000).2.2.1
      (by norm_num)).mpr (by norm_num)

/-- C9 counterexample: the code truncates the base value with int(), so a
base rain-duration value of one half, updated right now, makes the dependent
raining entity true although the base value is not 0, refuting the claim
that only value 0 yields true. -/
theorem is_raining_fractional_cex :
    isRainingUpdate true (some (1 / 2)) 1000 1000 = true ∧ (1 / 2 : ℚ) ≠ 0 := by
  constructor
  · norm_num [isRainingUpdate, pyInt, LAST_RAIN_PERIOD]
  · norm_num

/-- C9 amended: the dependent raining entity recomputes to true exactly when
the base time-span entity was found, has a displayed value that truncates to
the integer 0 (any value strictly between -1 and 1), and its last update is
at most 15 minutes (900 seconds) before now, inclusively; a missing base
entity, a missing value, a value truncating to a nonzero integer, or a
staler update yields false. -/
theorem is_raining_iff_truncated (found : Bool) (nv : Option ℚ)
    (blu now : ℚ) :
    isRainingUpdate found nv blu now = true ↔
      found = true ∧
        ∃ v, nv = some v ∧ pyInt v = 0 ∧ now - LAST_RAIN_PERIOD ≤ blu := by
  cases found <;> cases nv <;>
    simp [isRainingUpdate, ge_iff_le, decide_eq_true_eq]

/-- C9 witness for the amended claim: base value 0 updated right now gives
true, and the boundary of the 15 minute lookback is inclusive. -/
theorem is_raining_witness :
    isRainingUpdate true (some 0) 100 1000 = true := by
  rw [is_raining_iff_truncated]
  refine ⟨rfl, 0, rfl, by norm_num [pyInt], by norm_num [LAST_RAIN_PERIOD]⟩

/-- C10: a live update of a RAIN measurement carrying no prior value first
writes the currently displayed value into the measurement as prior value and
only then adopts the new reading, so the first delta after a restart is
taken against the restored displayed value. -/
theorem rain_prior_backfill (m : Measurement) (native : Option ℚ)
    (ht : m.mtype = MType.rain) (hp : m.prior_value = none) :
    (sensor_update_data_from_sensor m native).1.prior_value = native ∧
    (sensor_update_data_from_sensor m native).1.value = m.value ∧
    (sensor_update_data_from_sensor m native).2 =
      (match m.value with
       | MVal.merror _ => none
       | MVal.num q => some q) := by
  rw [sensor_update_pair]
  simp [ht, hp]

/-- C10 witness: with restored displayed value 2 and a fresh reading 7, the
measurement prior value becomes 2 and the displayed value 7. -/
theorem rain_prior_backfill_witness :
    (sensor_update_data_from_sensor
      { mtype := MType.rain, value := MVal.num 7, has_prior_value := true,
        prior_value := none } (some 2)).1.prior_value = some 2 ∧
    (sensor_update_data_from_sensor
      { mtype := MType.rain, value := MVal.num 7, has_prior_value := true,
        prior_value := none } (some 2)).2 = some 7 := by
  have h := rain_prior_backfill
    { mtype := MType.rain, value := MVal.num 7, has_prior_value := true,
      prior_value := none } (some 2) rfl rfl
  exact ⟨h.1, h.2.2⟩

/-- C5: a live update whose value is a decode error sets the displayed value
to None while the last_updated attribute still advances to the update
timestamp and an error attribute is written; a freshly constructed entity
with no data carries neither attribute, so the two states are
distinguishable. -/
theorem decode_error_behaviour (inp : SensorInput) (m : Measurement)
    (s : SensorState) (es : String)
    (hl : inp.hasLiveData = true) (he : m.value = MVal.merror es) :
    (handle_coordinator_update inp m s).2.native = none ∧
    (handle_coordinator_update inp m s).2.attrs.last_updated
        = some inp.timestamp ∧
    (handle_coordinator_update inp m s).2.attrs.error = some es ∧
    initialSensorState.attrs.last_updated = none ∧
    initialSensorState.attrs.error = none := by
  rw [handle_live_eq inp hl m s]
  have hv := sensor_update_value m s.native
  rw [he] at hv
  refine ⟨?_, ?_, ?_, rfl, rfl⟩
  · rw [sensor_update_pair]
    simp [he]
  · simp [attrsUpdate, buildLiveAttrs, updKey]
  · simp [attrsUpdate, buildLiveAttrs, updKey, hv]

/-- C5 witness: a decode error live update at timestamp 9 on a fresh entity
leaves the value empty but records last_updated 9 and the error text. -/
theorem decode_error_witness :
    (handle_coordinator_update
      { hasLiveData := true, timestamp := 9, by_event := false }
      { mtype := MType.other, value := MVal.merror "overflow",
        has_prior_value := false, prior_value := none }
      initialSensorState).2.native = none ∧
    (handle_coordinator_update
      { hasLiveData := true, timestamp := 9, by_event := false }
      { mtype := MType.other, value := MVal.merror "overflow",
        has_prior_value := false, prior_value := none }
      initialSensorState).2.attrs.last_updated = some 9 ∧
    (handle_coordinator_update
      { hasLiveData := true, timestamp := 9, by_event := false }
      { mtype := MType.other, value := MVal.merror "overflow",
        has_prior_value := false, prior_value := none }
      initialSensorState).2.attrs.error = some "overflow" := by
  have h := decode_error_behaviour
    { hasLiveData := true, timestamp := 9, by_event := false }
    { mtype := MType.other, value := MVal.merror "overflow",
      has_prior_value := false, prior_value := none }
    initialSensorState "overflow" rfl rfl
  exact ⟨h.1, h.2.1, h.2.2.1⟩

/-- C3 counterexample: a live update arriving while a restored snapshot is
still pending takes precedence, but the snapshot is not cleared: _last_state
keeps its value instead of being discarded, refuting the part of the claim
that says the restored state is cleared once superseded by live data. -/
theorem live_update_keeps_snapshot_cex :
    (handle_coordinator_update
      { hasLiveData := true, timestamp := 5, by_event := false }
      { mtype := MType.other, value := MVal.num 4, has_prior_value := false,
        prior_value := none }
      { native := none, attrs := {}, lastState := some 7,
        lastExtra := none }).2.native = some 4 ∧
    (handle_coordinator_update
      { hasLiveData := true, timestamp := 5, by_event := false }
      { mtype := MType.other, value := MVal.num 4, has_prior_value := false,
        prior_value := none }
      { native := none, attrs := {}, lastState := some 7,
        lastExtra := none }).2.lastState = some 7 := by
  constructor <;>
    norm_num [handle_coordinator_update, sensor_update_data_from_sensor,
      buildLiveAttrs, attrsUpdate, updKey]

/-- C3 amended: live data always wins over restored data: with live data
present the displayed value is derived from the measurement alone and the
pending restored state is never consulted (though also not cleared); without
live data a pending restored state is consumed and cleared; and a cleared
restored state stays cleared through any further update, so a snapshot is
applied at most once and never after it was consumed. -/
theorem live_precedence (inp : SensorInput) (m : Measurement)
    (s : SensorState) :
    (inp.hasLiveData = true →
      (handle_coordinator_update inp m s).2.native
          = (sensor_update_data_from_sensor m s.native).2 ∧
      (handle_coordinator_update inp m s).2.lastState = s.lastState) ∧
    (inp.hasLiveData = false → ∀ v, s.lastState = some v →
      (handle_coordinator_update inp m s).2.native = some v ∧
      (handle_coordinator_update inp m s).2.lastState = none) ∧
    (s.lastState = none →
      (handle_coordinator_update inp m s).2.lastState = none) := by
  refine ⟨fun hl => ?_, fun hl v hv => ?_, fun hn => ?_⟩
  · rw [handle_live_eq inp hl m s]
    exact ⟨rfl, rfl⟩
  · constructor <;>
      simp [handle_coordinator_update, hl, hv,
        sensor_update_data_from_last_state]
  · cases hl : inp.hasLiveData
    · simp [handle_coordinator_update, hl, hn]
    · rw [handle_live_eq inp hl m s]
      exact hn

/-- C3 witness: with no live data a pending restored state 7 is adopted as
the displayed value and cleared. -/
theorem live_precedence_witness :
    (handle_coordinator_update
      { hasLiveData := false, timestamp := 0, by_event := false }
      { mtype := MType.other, value := MVal.num 4, has_prior_value := false,
        prior_value := none }
      { native := none, attrs := {}, lastState := some 7,
        lastExtra := none }).2.native = some 7 ∧
    (handle_coordinator_update
      { hasLiveData := false, timestamp := 0, by_event := false }
      { mtype := MType.other, value := MVal.num 4, has_prior_value := false,
        prior_value := none }
      { native := none, attrs := {}, lastState := some 7,
        lastExtra := none }).2.lastState = none :=
  (live_precedence _ _ _).2.1 rfl 7 rfl

/-- C7: deserialization keeps exactly the recognized attribute keys: a
binding survives from_dict precisely when it was present under a recognized
key, unknown keys being dropped; and on the window restore path both
recognized keys may be absent, in which case the restore still succeeds with
the measurements dict and last_update keeping their previous (default)
values: an absent measurements key yields the (empty) prior window and an
absent last_updated key leaves last_update at its default. -/
theorem from_dict_and_defaults :
    (∀ (α : Type) (r : List (String × α)) (k : String) (v : α),
      (k, v) ∈ from_dict r ↔ (k, v) ∈ r ∧ k ∈ STATE_ATTR_EXTRA) ∧
    (∀ (s : PeriodRainState) (raw : RawAttrs), s.lastExtra = some raw →
      raw.measurements = none → raw.last_updated = none →
      ∃ s2, periodRainRestore s = Except.ok s2 ∧
        s2.measurements = s.measurements ∧
        s2.last_update = s.last_update) := by
  constructor
  · intro α r k v
    simp [from_dict, List.mem_filter]
  · intro s raw he hm hlu
    cases hls : s.lastState <;>
      simp [periodRainRestore, hls, he, hm, hlu]

/-- C7 witness: an unknown key junk is dropped while last_updated survives,
and a snapshot with neither recognized window key restores to the empty
default window with last_update 0. -/
theorem from_dict_defaults_witness :
    ("last_updated", "x") ∈ from_dict [("junk", "y"), ("last_updated", "x")] ∧
    ∃ s2, periodRainRestore
        { native := none, attrs := {}, lastState := some 5,
          lastExtra := some {}, last_update := 0, measurements := [] }
      = Except.ok s2 ∧ s2.measurements = [] ∧ s2.last_update = 0 := by
  constructor
  · exact (from_dict_and_defaults.1 String _ _ _).mpr
      ⟨by simp, by simp [STATE_ATTR_EXTRA]⟩
  · exact from_dict_and_defaults.2 _ {} rfl rfl rfl

/-- Inserting a key not present in the dict appends the new entry. -/
theorem dictInsert_fresh (d : List (ℚ × ℚ)) (k v : ℚ)
    (h : ∀ p ∈ d, p.1 ≠ k) : dictInsert d k v = d ++ [(k, v)] := by
  have ha : d.any (fun p => decide (p.1 = k)) = false := by
    rw [List.any_eq_false]
    intro p hp
    simp [h p hp]
  simp [dictInsert, ha]

/-- The window total after inserting a fresh key grows by the increment. -/
theorem dictSum_insert_fresh (d : List (ℚ × ℚ)) (k v : ℚ)
    (h : ∀ p ∈ d, p.1 ≠ k) :
    dictSum (dictInsert d k v) = dictSum d + v := by
  rw [dictInsert_fresh d k v h]
  simp [dictSum]

/-- C2 counterexample: an increment of -1 (current value 1, prior value 2),
which is at most 0, offered at the fresh timestamp 10 to an empty window, is
not a no-op: the entry (10, -1) is inserted and last_update becomes 10,
because Python truthiness only drops a 0.0 or missing increment. -/
theorem accept_negative_increment_cex :
    ((1 : ℚ) - 2 ≤ 0) ∧
    periodRainInsert
      { found := true, curr_value := 1, prior_value := 2, last_update := 10 }
      [] 0
      = ([(10, -1)], 10) ∧
    ([((10 : ℚ), (-1 : ℚ))], (10 : ℚ)) ≠ ([], 0) := by
  refine ⟨by norm_num, ?_, by simp⟩
  norm_num [periodRainInsert, get_last_rain_value, dictInsert]

/-- C2 amended: with the rain entity found, offering an increment is a no-op
(entries and last_update, hence the window total, unchanged) when the prior
value is missing (negative sentinel), when the increment curr - prior is 0,
or when the timestamp is at most the window last_update; otherwise, negative
increments included, the entry is inserted under the timestamp, last_update
becomes that timestamp, and for a timestamp not already present the window
total changes by exactly the increment.  The original claim fails only in
that a strictly negative increment is stored rather than dropped. -/
theorem accept_characterization (rs : RainSensorView) (e : List (ℚ × ℚ))
    (lu : ℚ) (hf : rs.found = true) :
    (rs.prior_value < 0 → periodRainInsert rs e lu = (e, lu)) ∧
    (0 ≤ rs.prior_value →
      ((rs.curr_value - rs.prior_value = 0 ∨ rs.last_update ≤ lu) →
        periodRainInsert rs e lu = (e, lu)) ∧
      (rs.curr_value - rs.prior_value ≠ 0 → lu < rs.last_update →
        periodRainInsert rs e lu
          = (dictInsert e rs.last_update (rs.curr_value - rs.prior_value),
             rs.last_update) ∧
        ((∀ p ∈ e, p.1 ≠ rs.last_update) →
          dictSum (dictInsert e rs.last_update
              (rs.curr_value - rs.prior_value))
            = dictSum e + (rs.curr_value - rs.prior_value)))) := by
  refine ⟨fun hneg => ?_,
    fun hpos => ⟨fun hrej => ?_, fun hnz hts => ⟨?_, fun hfresh => ?_⟩⟩⟩
  · simp [periodRainInsert, get_last_rain_value, hf, hneg.not_le]
  · rcases hrej with h0 | hts
    · cases hgt : decide (lu < rs.last_update) with
      | true =>
        have hgt2 := of_decide_eq_true hgt
        simp [periodRainInsert, get_last_rain_value, hf, hpos, hgt2, h0]
      | false =>
        have hgt2 := of_decide_eq_false hgt
        simp [periodRainInsert, get_last_rain_value, hf, hgt2]
    · simp [periodRainInsert, get_last_rain_value, hf, not_lt.mpr hts]
  · simp [periodRainInsert, get_last_rain_value, hf, hpos, hts, hnz]
  · exact dictSum_insert_fresh e rs.last_update
      (rs.curr_value - rs.prior_value) hfresh

/-- C2 witness: a positive increment 2 at fresh timestamp 10 is inserted and
raises the window total by 2. -/
theorem accept_characterization_witness :
    periodRainInsert
      { found := true, curr_value := 3, prior_value := 1, last_update := 10 }
      [] 0
      = (dictInsert [] 10 ((3 : ℚ) - 1), 10) ∧
    dictSum (dictInsert [] 10 ((3 : ℚ) - 1))
      = dictSum [] + ((3 : ℚ) - 1) := by
  have h := ((accept_characterization
    { found := true, curr_value := 3, prior_value := 1, last_update := 10 }
    [] 0 rfl).2 (by norm_num)).2 (by norm_num) (by norm_num)
  exact ⟨h.1, h.2 (by simp)⟩

/-- A malformed pair makes the restore comprehension raise, whatever the
accumulator holds. -/
theorem parseMeasLoop_malformed (ms : List (Option ℚ × Option ℚ))
    (h : ∃ p ∈ ms, p.1 = none ∨ p.2 = none) :
    ∀ d, parseMeasLoop d ms = Except.error () := by
  induction ms with
  | nil => simp at h
  | cons p rest ih =>
    intro d
    rcases p with ⟨a, b⟩
    rcases a with _ | t
    · simp [parseMeasLoop]
    · rcases b with _ | v
      · simp [parseMeasLoop]
      · rcases h with ⟨q, hq, hbad⟩
        rcases List.mem_cons.mp hq with hq1 | hq2
        · subst hq1
          simp at hbad
        · exact ih ⟨q, hq2, hbad⟩ (dictInsert d t v)

/-- C6 counterexample: restoring a rolling-window entity from a snapshot
whose stored measurements list holds one pair with an unparsable timestamp
raises out of the restore instead of dropping the offending field: the
result is the error case, the inherited restore already applied but the
window still empty. -/
theorem malformed_restore_raises_cex :
    periodRainRestore
      { native := none, attrs := {}, lastState := some 3,
        lastExtra := some { last_updated := none,
                            measurements := some [(none, some 1)] },
        last_update := 0, measurements := [] }
    = Except.error
        { native := some 3, attrs := {}, lastState := none,
          lastExtra := some { last_updated := none,
                              measurements := some [(none, some 1)] },
          last_update := 0, measurements := [] } := by
  norm_num [periodRainRestore, parseMeasurements, parseMeasLoop]

/-- C6 amended: a malformed pair in the stored measurements list (unparsable
timestamp or non-numeric increment) makes the restore raise ValueError out
of the entity restore step; no field is dropped and the restore is not
continued.  The window is left unchanged (no partial assignment), because
the measurements dict is only assigned after the whole comprehension
succeeds. -/
theorem malformed_restore_raises (s : PeriodRainState) (raw : RawAttrs)
    (ms : List (Option ℚ × Option ℚ))
    (he : s.lastExtra = some raw) (hm : raw.measurements = some ms)
    (hbad : ∃ p ∈ ms, p.1 = none ∨ p.2 = none) :
    ∃ s2, periodRainRestore s = Except.error s2 ∧
      s2.measurements = s.measurements ∧
      s2.last_update = s.last_update := by
  cases hls : s.lastState <;>
    simp [periodRainRestore, hls, he, hm, parseMeasurements,
      parseMeasLoop_malformed ms hbad]

/-- C6 witness: a snapshot with one malformed pair raises while leaving the
previously held window entries and last_update in place. -/
theorem malformed_restore_witness :
    ∃ s2, periodRainRestore
        { native := none, attrs := {}, lastState := none,
          lastExtra := some { last_updated := none,
                              measurements := some [(none, some 1)] },
          last_update := 7, measurements := [(3, 1)] }
      = Except.error s2 ∧ s2.measurements = [(3, 1)] ∧
        s2.last_update = 7 :=
  malformed_restore_raises _ _ _ rfl rfl
    ⟨(none, some 1), by simp, Or.inl rfl⟩

/-- Applying update_data_from_sensor a second time with the same reading is
the identity, as long as the first application does not leave a RAIN
measurement with a missing prior value next to a non-null displayed
value. -/
theorem sensor_update_stable (m : Measurement) (n : Option ℚ)
    (hno : ¬((sensor_update_data_from_sensor m n).1.mtype = MType.rain ∧
             (sensor_update_data_from_sensor m n).1.prior_value = none ∧
             (sensor_update_data_from_sensor m n).2 ≠ none)) :
    sensor_update_data_from_sensor (sensor_update_data_from_sensor m n).1
        (sensor_update_data_from_sensor m n).2
      = sensor_update_data_from_sensor m n := by
  obtain ⟨mt, mv, mh, mp⟩ := m
  rw [sensor_update_pair] at hno ⊢
  rw [sensor_update_pair]
  by_cases hc : mt = MType.rain ∧ mp = none
  · simp only [hc, and_self, if_true] at hno ⊢
    rcases n with _ | w
    · cases mv with
      | merror es => simp
      | num q => simp at hno
    · simp
  · simp only [hc, if_false] at hno ⊢

/-- C8 counterexample: replaying the identical live update (RAIN reading 5
at timestamp 5) on a fresh entity is not idempotent: the first application
backfills the measurement prior value with the displayed None, so the second
application backfills it again with the now displayed 5, changing the
measurement and its prior_value attribute. -/
theorem replay_not_idempotent_cex :
    liveStep { hasLiveData := true, timestamp := 5, by_event := false }
      (liveStep { hasLiveData := true, timestamp := 5, by_event := false }
        ({ mtype := MType.rain, value := MVal.num 5,
           has_prior_value := true, prior_value := none },
         initialSensorState))
      ≠ liveStep { hasLiveData := true, timestamp := 5, by_event := false }
        ({ mtype := MType.rain, value := MVal.num 5,
           has_prior_value := true, prior_value := none },
         initialSensorState) := by
  norm_num [liveStep, handle_coordinator_update, sensor_update_data_from_sensor,
    buildLiveAttrs, attrsUpdate, updKey, initialSensorState]
  exact Option.some_ne_none 5

/-- C8 amended: replaying the identical live update leaves the displayed
value and the last_updated attribute unchanged after the second application,
and leaves the entire state (measurement object included) unchanged provided
the first application does not leave a RAIN measurement with a missing prior
value next to a non-null displayed value; in that remaining case (the first
ever RAIN reading of an entity that displayed nothing) the second
application backfills the measurement prior value with the first reading,
changing the prior_value attribute. -/
theorem replay_idempotent (inp : SensorInput) (m : Measurement)
    (s : SensorState) (hl : inp.hasLiveData = true) :
    (liveStep inp (liveStep inp (m, s))).2.native
        = (liveStep inp (m, s)).2.native ∧
    (liveStep inp (liveStep inp (m, s))).2.attrs.last_updated
        = (liveStep inp (m, s)).2.attrs.last_updated ∧
    (¬((liveStep inp (m, s)).1.mtype = MType.rain ∧
        (liveStep inp (m, s)).1.prior_value = none ∧
        (liveStep inp (m, s)).2.native ≠ none) →
      liveStep inp (liveStep inp (m, s)) = liveStep inp (m, s)) := by
  simp only [liveStep, handle_live_eq inp hl]
  refine ⟨?_, ?_, fun hno => ?_⟩
  · rw [sensor_update_pair (sensor_update_data_from_sensor m s.native).1,
      sensor_update_value, sensor_update_pair m s.native]
  · simp [attrsUpdate, buildLiveAttrs, updKey]
  · have hst := sensor_update_stable m s.native hno
    rw [hst, attrsUpdate_idem]

/-- C8 witness: for a non RAIN measurement the replayed update reproduces
the exact same state. -/
theorem replay_idempotent_witness :
    liveStep { hasLiveData := true, timestamp := 5, by_event := false }
      (liveStep { hasLiveData := true, timestamp := 5, by_event := false }
        ({ mtype := MType.other, value := MVal.num 5,
           has_prior_value := false, prior_value := none },
         initialSensorState))
      = liveStep { hasLiveData := true, timestamp := 5, by_event := false }
        ({ mtype := MType.other, value := MVal.num 5,
           has_prior_value := false, prior_value := none },
         initialSensorState) :=
  (replay_idempotent
    { hasLiveData := true, timestamp := 5, by_event := false }
    { mtype := MType.other, value := MVal.num 5,
      has_prior_value := false, prior_value := none }
    initialSensorState rfl).2.2 (by
      norm_num [liveStep, handle_coordinator_update,
        sensor_update_data_from_sensor, initialSensorState]
      exact fun h => MType.noConfusion h)

/-- C1: the eviction pass of
MobileAlertesPeriodRainSensor.update_data_from_sensor pops stale entries
from the dict it is iterating, so whenever a stored entry is older than
now - period the recomputation raises RuntimeError instead of summing the
survivors: at the failing input (one entry of 1 mm at time 100, now 200,
period 50, no rain entity this cycle) the update ends in the error case with
the stale entry popped but the displayed value never set, while the same
window evaluated inside the period (now 120) completes and sums to 1. -/
theorem period_rain_eviction_raises :
    periodRainUpdate
      { found := false, curr_value := 0, prior_value := 0, last_update := 0 }
      200 50
      { native := none, attrs := {}, lastState := none, lastExtra := none,
        last_update := 100, measurements := [(100, 1)] }
    = Except.error
        { native := none, attrs := {}, lastState := none,
          lastExtra := none, last_update := 100, measurements := [] } ∧
    periodRainUpdate
      { found := false, curr_value := 0, prior_value := 0, last_update := 0 }
      120 50
      { native := none, attrs := {}, lastState := none, lastExtra := none,
        last_update := 100, measurements := [(100, 1)] }
    = Except.ok
        { native := some 1,
          attrs := { last_updated := some 100,
                     measurements := some [(100, 1)] },
          lastState := none, lastExtra := none, last_update := 100,
          measurements := [(100, 1)] } := by
  constructor <;> norm_num [periodRainUpdate, periodRainInsert, evictLoop]

end MobileAlerts
